import Mathlib

/-!
Verification of the fouling-cost prediction engine of FoulingCostApp:
the physics model `server/models/foulingPhysics.js` (class FoulingPhysics)
and the adaptive layer `server/models/adaptiveModel.js` (class
AdaptiveFoulingModel), embedded shallowly over the exact reals.

Modelling conventions, matching the JavaScript source:
- JavaScript numbers are embedded as real numbers (exact arithmetic);
  `Math.pow` is real exponentiation (`Real.rpow`), `Math.sqrt` is
  `Real.sqrt`.  Division by zero yields 0 in the embedding (JavaScript
  produces Infinity/NaN there; no theorem below relies on that case
  except where explicitly discussed).
- JavaScript truthiness tests on numbers (`!x`) hold exactly for 0 (and
  NaN); they are embedded as equality with 0.
- Database persistence (`saveModelState`/`loadModelState`), logging, and
  the wall clock are I/O and are outside the embedding; `updateFromReading`
  is embedded as a pure state transition, and the current time is an
  explicit argument where the source reads `new Date()`.
-/

namespace FoulingCostApp

/-- Result record of `FoulingPhysics.calculateCostAt`
(foulingPhysics.js lines 271-277). -/
structure CostAtResult where
  clean : ℝ
  fouled : ℝ
  foulingIncrease : ℝ
  speedReduction : ℝ
  roughness : ℝ

/-- `this.frKsMapping` (foulingPhysics.js lines 43-50), read with the
source's `frKsMapping[frLevel] || 0` fallback for out-of-range indices. -/
def frKsMapping : ℕ → ℝ
  | 0 => 0
  | 1 => 0.00003
  | 2 => 0.00010
  | 3 => 0.00030
  | 4 => 0.00080
  | 5 => 0.00200
  | _ => 0

/-- `foulingIncreases` table (foulingPhysics.js line 264), read with the
source's `foulingIncreases[frLevel] || 0` fallback. -/
def foulingIncreases : ℕ → ℝ
  | 0 => 0
  | 1 => 0.15
  | 2 => 0.35
  | 3 => 0.60
  | 4 => 0.95
  | 5 => 1.93
  | _ => 0

/-- `this.KNOTS_TO_MPS` (foulingPhysics.js line 24). -/
def KNOTS_TO_MPS : ℝ := 0.514444

/-- `this.GRAVITY` (foulingPhysics.js line 28). -/
def GRAVITY : ℝ := 9.81

/-- The vessel-derived fields of a constructed `FoulingPhysics` instance
that the functions under verification read: hull length, wave exponent
(`vessel.wave_exp || 4.5`), full speed, and the cached power-law
coefficients `alpha`, `beta`. -/
structure PhysicsParams where
  length : ℝ
  waveExp : ℝ
  fullSpeed : ℝ
  alpha : ℝ
  beta : ℝ

/-- `solveAlphaBeta` numerator for alpha (foulingPhysics.js line 159):
`(ecoCost * y2 - fullCost * y1) / det`. -/
noncomputable def solvedAlpha (waveExp ecoCost fullCost ecoSpeed fullSpeed : ℝ) : ℝ :=
  let x1 := ecoSpeed ^ (3 : ℝ)
  let y1 := ecoSpeed ^ waveExp
  let x2 := fullSpeed ^ (3 : ℝ)
  let y2 := fullSpeed ^ waveExp
  (ecoCost * y2 - fullCost * y1) / (x1 * y2 - x2 * y1)

/-- `solveAlphaBeta` numerator for beta (foulingPhysics.js line 160):
`(fullCost * x1 - ecoCost * x2) / det`. -/
noncomputable def solvedBeta (waveExp ecoCost fullCost ecoSpeed fullSpeed : ℝ) : ℝ :=
  let x1 := ecoSpeed ^ (3 : ℝ)
  let y1 := ecoSpeed ^ waveExp
  let x2 := fullSpeed ^ (3 : ℝ)
  let y2 := fullSpeed ^ waveExp
  (fullCost * x1 - ecoCost * x2) / (x1 * y2 - x2 * y1)

/-- `FoulingPhysics.solveAlphaBeta` (foulingPhysics.js lines 140-167).
Throws when `ecoSpeed === fullSpeed`, or when any of the four inputs is
falsy (`!ecoCost || !fullCost || !ecoSpeed || !fullSpeed`), i.e. zero;
otherwise solves the 2x2 linear system for the coefficients.
`waveExp` stands for the instance field `this.waveExp`. -/
noncomputable def solveAlphaBeta (waveExp ecoCost fullCost ecoSpeed fullSpeed : ℝ) :
    Except String (ℝ × ℝ) :=
  if ecoSpeed = fullSpeed then
    .error "Speeds must differ"
  else if ecoCost = 0 ∨ fullCost = 0 ∨ ecoSpeed = 0 ∨ fullSpeed = 0 then
    .error "All parameters must be provided"
  else
    .ok (solvedAlpha waveExp ecoCost fullCost ecoSpeed fullSpeed,
         solvedBeta waveExp ecoCost fullCost ecoSpeed fullSpeed)

/-- Whether a `solveAlphaBeta` call threw. -/
def throwsError (r : Except String (ℝ × ℝ)) : Bool :=
  match r with
  | .error _ => true
  | .ok _ => false

/-- `FoulingPhysics.calculateBaseCost` (foulingPhysics.js lines 169-180)
with `alpha`, `beta` already cached: clamps the speed to
`[0.1, 1.2 * fullSpeed]` and evaluates the calibrated power law. -/
noncomputable def calculateBaseCost (p : PhysicsParams) (speed : ℝ) : ℝ :=
  let clampedSpeed := max 0.1 (min speed (p.fullSpeed * 1.2))
  p.alpha * clampedSpeed ^ (3 : ℝ) + p.beta * clampedSpeed ^ p.waveExp

/-- `FoulingPhysics.calculateCostAt` (foulingPhysics.js lines 243-278):
base cost, Froude-number-dependent attenuation of the tabulated fouling
increase, and the fouled cost. -/
noncomputable def calculateCostAt (p : PhysicsParams) (speed : ℝ) (frLevel : ℕ) :
    CostAtResult :=
  let baseCost := calculateBaseCost p speed
  let roughness := frKsMapping frLevel
  let speedMs := speed * KNOTS_TO_MPS
  let Fr := speedMs / Real.sqrt (GRAVITY * p.length)
  let speedReduction := if Fr > 0.15 then max 0.3 (1.0 - 2.0 * (Fr - 0.15)) else 1.0
  let baseFoulingIncrease := foulingIncreases frLevel
  let effectiveFoulingIncrease := baseFoulingIncrease * speedReduction
  { clean := baseCost
    fouled := baseCost * (1 + effectiveFoulingIncrease)
    foulingIncrease := effectiveFoulingIncrease
    speedReduction := speedReduction
    roughness := roughness }

/-- One entry of `this.trainingDataBuffer`
(adaptiveModel.js lines 171-179). -/
structure TrainingPoint where
  actual : ℝ
  predicted : ℝ
  speed : ℝ
  weather : String
  frLevel : ℕ
  error : ℝ
  timestamp : String

/-- The mutable adaptive state of an `AdaptiveFoulingModel`
(adaptiveModel.js lines 30-39). -/
structure AdaptiveState where
  correctionFactor : ℝ
  foulingAccumulationRate : ℝ
  confidence : ℝ
  trainingDataCount : ℕ
  trainingDataBuffer : List TrainingPoint

/-- Constructor defaults (adaptiveModel.js lines 30-39) for a vessel with
no persisted model state: correction factor 1.0, accumulation rate 1.0,
confidence 0, no observations. -/
def initialAdaptiveState : AdaptiveState :=
  { correctionFactor := 1.0
    foulingAccumulationRate := 1.0
    confidence := 0.0
    trainingDataCount := 0
    trainingDataBuffer := [] }

/-- `AdaptiveFoulingModel.calculateDaysSinceClean`
(adaptiveModel.js lines 86-92): 0 when the last-clean date is absent,
otherwise `Math.max(0, Math.floor((now - clean) / 86400000))`.
Timestamps are embedded as real epoch milliseconds. -/
noncomputable def calculateDaysSinceClean (now : ℝ) (lastCleanDate : Option ℝ) : ℝ :=
  match lastCleanDate with
  | none => 0
  | some clean => ((max 0 ⌊(now - clean) / (1000 * 60 * 60 * 24)⌋ : ℤ) : ℝ)

/-- `AdaptiveFoulingModel.estimateFRLevel` (adaptiveModel.js lines 94-105):
buckets `daysSinceClean * foulingAccumulationRate` into fouling levels
0-5 at the thresholds 30, 60, 120, 180, 270. -/
noncomputable def estimateFRLevel (foulingAccumulationRate daysSinceClean : ℝ) : ℕ :=
  let adjustedDays := daysSinceClean * foulingAccumulationRate
  if adjustedDays < 30 then 0
  else if adjustedDays < 60 then 1
  else if adjustedDays < 120 then 2
  else if adjustedDays < 180 then 3
  else if adjustedDays < 270 then 4
  else 5

/-- The weather multiplier of `predict` (adaptiveModel.js lines 115-122):
table lookup with `weatherMultipliers[weather] || weatherMultipliers.moderate`
as the fallback for keys not in the table. -/
def weatherMultiplier (weather : String) : ℝ :=
  if weather = "calm" then 1.0
  else if weather = "moderate" then 1.05
  else if weather = "rough" then 1.15
  else if weather = "storm" then 1.30
  else 1.05

/-- Component record returned by `predict(speed, weather, true)`
(adaptiveModel.js lines 127-136). -/
structure Prediction where
  predicted : ℝ
  base : ℝ
  frLevel : ℕ
  correctionFactor : ℝ
  weatherMultiplier : ℝ
  confidence : ℝ

/-- `AdaptiveFoulingModel.predict` (adaptiveModel.js lines 107-139).
NOTE: line 112 binds `baseCost` to the whole record returned by
`calculateCostAt` and line 125 multiplies that record by numbers, which
JavaScript coerces to NaN; the service layer (`calculator.js`) and the
specification read the record's `fouled` field, and the embedding takes
that intended numeric reading.  See the C1 analysis. -/
noncomputable def predictComponents (p : PhysicsParams) (daysSinceClean : ℝ)
    (st : AdaptiveState) (speed : ℝ) (weather : String) : Prediction :=
  let frLevel := estimateFRLevel st.foulingAccumulationRate daysSinceClean
  let baseCost := (calculateCostAt p speed frLevel).fouled
  let wm := weatherMultiplier weather
  { predicted := baseCost * st.correctionFactor * wm
    base := baseCost
    frLevel := frLevel
    correctionFactor := st.correctionFactor
    weatherMultiplier := wm
    confidence := st.confidence }

/-- `predict(speed, weather)` without `returnComponents`
(adaptiveModel.js line 138). -/
noncomputable def predict (p : PhysicsParams) (daysSinceClean : ℝ)
    (st : AdaptiveState) (speed : ℝ) (weather : String) : ℝ :=
  (predictComponents p daysSinceClean st speed weather).predicted

/-- `predict(speed)` with the weather argument omitted: the JavaScript
default parameter `weather = 'calm'` (adaptiveModel.js line 107). -/
noncomputable def predictDefaultWeather (p : PhysicsParams) (daysSinceClean : ℝ)
    (st : AdaptiveState) (speed : ℝ) : ℝ :=
  predict p daysSinceClean st speed "calm"

/-- `AdaptiveFoulingModel.updateConfidence` (adaptiveModel.js lines 199-212). -/
noncomputable def updateConfidence (confidence relativeError : ℝ) : ℝ :=
  if relativeError < 0.15 then
    let improvement := (0.15 - relativeError) * 100
    min 100 (confidence + improvement * 0.5)
  else
    let degradation := (relativeError - 0.15) * 100
    max 0 (confidence - degradation * 0.3)

/-- `AdaptiveFoulingModel.storeTrainingData` (adaptiveModel.js lines
214-221): push, then drop the oldest entry while over
`maxBufferSize = 100`. -/
def storeTrainingData (buffer : List TrainingPoint) (dataPoint : TrainingPoint) :
    List TrainingPoint :=
  let pushed := buffer ++ [dataPoint]
  if pushed.length > 100 then pushed.tail else pushed

/-- `AdaptiveFoulingModel.shouldRetrain` (adaptiveModel.js lines 223-227),
read after the counter increment and the buffer push. -/
def shouldRetrain (trainingDataCount : ℕ) (confidence : ℝ) (bufferLength : ℕ) : Prop :=
  trainingDataCount % 10 = 0 ∨ (confidence < 50 ∧ 5 ≤ bufferLength)

noncomputable instance (c : ℕ) (conf : ℝ) (l : ℕ) : Decidable (shouldRetrain c conf l) := by
  unfold shouldRetrain; infer_instance

/-- `AdaptiveFoulingModel.updateFoulingAccumulationRate`
(adaptiveModel.js lines 247-282): keep buffer entries with positive
fouling level; if fewer than 3, do nothing; otherwise average the stored
`error` values per fouling level, add `avgError * 0.5` per group, divide
by the number of groups and clamp `rate * (1 + adjustment)` to
`[0.5, 2.0]`.  The JavaScript `errorsByFR` object keyed by fouling level
is embedded as the deduplicated list of levels present. -/
noncomputable def updateFoulingAccumulationRate (buffer : List TrainingPoint)
    (rate : ℝ) : ℝ :=
  let dataPoints := buffer.filter (fun d => 0 < d.frLevel)
  if dataPoints.length < 3 then rate
  else
    let frLevels := (dataPoints.map (fun d => d.frLevel)).dedup
    let groupAdjustment := fun (fr : ℕ) =>
      let errors := (dataPoints.filter (fun d => d.frLevel = fr)).map (fun d => d.error)
      (errors.sum / (errors.length : ℝ)) * 0.5
    let totalAdjustment := (frLevels.map groupAdjustment).sum
    let adjustmentCount := frLevels.length
    if 0 < adjustmentCount then
      max 0.5 (min 2.0 (rate * (1 + totalAdjustment / (adjustmentCount : ℝ))))
    else rate

/-- `AdaptiveFoulingModel.retrainModel` (adaptiveModel.js lines 229-245):
no-op below 3 buffered points, otherwise update the accumulation rate. -/
noncomputable def retrainModel (st : AdaptiveState) : AdaptiveState :=
  if st.trainingDataBuffer.length < 3 then st
  else
    { st with
      foulingAccumulationRate :=
        updateFoulingAccumulationRate st.trainingDataBuffer st.foulingAccumulationRate }

/-- One `observe` input: the arguments of `updateFromReading`
(adaptiveModel.js line 141).  The stored timestamp is the given one (the
`timestamp || new Date().toISOString()` wall-clock fallback is I/O and
outside the embedding). -/
structure Reading where
  actualFuelRate : ℝ
  speed : ℝ
  weather : String
  timestamp : String

/-- `AdaptiveFoulingModel.updateFromReading` (adaptiveModel.js lines
141-197) as a state transition: early return on a non-positive fuel
rate; otherwise update the correction factor (clamped to [0.3, 3.0]),
the confidence, the training buffer and counter, and retrain when
`shouldRetrain` holds. -/
noncomputable def updateFromReading (p : PhysicsParams) (daysSinceClean : ℝ)
    (st : AdaptiveState) (r : Reading) : AdaptiveState :=
  if r.actualFuelRate ≤ 0 then st
  else
    let prediction := predictComponents p daysSinceClean st r.speed r.weather
    let predicted := prediction.predicted
    let absoluteError := |r.actualFuelRate - predicted|
    let relativeError := absoluteError / predicted
    let signedError := (r.actualFuelRate - predicted) / predicted
    let baseLearningRate := 0.1
    let confidenceAdjustment := max 0.5 (1 - st.confidence / 100)
    let learningRate := baseLearningRate * confidenceAdjustment
    let correctionUpdate := 1 + signedError * learningRate
    let correctionFactor' := max 0.3 (min 3.0
      (st.correctionFactor * (1 - learningRate) + correctionUpdate * learningRate))
    let confidence' := updateConfidence st.confidence relativeError
    let buffer' := storeTrainingData st.trainingDataBuffer
      { actual := r.actualFuelRate
        predicted := predicted
        speed := r.speed
        weather := r.weather
        frLevel := prediction.frLevel
        error := relativeError
        timestamp := r.timestamp }
    let count' := st.trainingDataCount + 1
    let st' : AdaptiveState :=
      { correctionFactor := correctionFactor'
        foulingAccumulationRate := st.foulingAccumulationRate
        confidence := confidence'
        trainingDataCount := count'
        trainingDataBuffer := buffer' }
    if shouldRetrain count' confidence' buffer'.length then retrainModel st' else st'

/-- `AdaptiveFoulingModel.calculateExtraCostPerDay` (adaptiveModel.js
lines 284-295).  Line 288 again binds the whole `calculateCostAt` record;
the embedding takes its `fouled` field (equal to `clean` at level 0 since
the tabulated increase is 0 there).  `predict` is called with the weather
argument omitted, so with the default `'calm'`. -/
noncomputable def calculateExtraCostPerDay (p : PhysicsParams) (ecoSpeed daysSinceClean : ℝ)
    (st : AdaptiveState) : ℝ :=
  let cleanCost := (calculateCostAt p ecoSpeed 0).fouled
  let currentCost := predictDefaultWeather p daysSinceClean st ecoSpeed
  max 0 ((currentCost - cleanCost) * 24)

/-- The AdaptiveState bounds stated by the specification. -/
def stateBounds (st : AdaptiveState) : Prop :=
  (0.3 ≤ st.correctionFactor ∧ st.correctionFactor ≤ 3.0) ∧
  (0.5 ≤ st.foulingAccumulationRate ∧ st.foulingAccumulationRate ≤ 2.0) ∧
  (0 ≤ st.confidence ∧ st.confidence ≤ 100)

/- ------------------------------------------------------------------ -/
/- Theorems                                                            -/
/- ------------------------------------------------------------------ -/

/-- Claim C7: `updateFromReading` with a non-positive fuel rate leaves the
whole adaptive state unchanged. -/
theorem updateFromReading_nonpositive_noop (p : PhysicsParams) (daysSinceClean : ℝ)
    (st : AdaptiveState) (r : Reading) (h : r.actualFuelRate ≤ 0) :
    updateFromReading p daysSinceClean st r = st := by
  unfold updateFromReading
  rw [if_pos h]

/-- Witness for C7: a zero fuel-rate reading leaves the initial state
unchanged. -/
theorem updateFromReading_nonpositive_noop_witness :
    updateFromReading ⟨50, 4.5, 14, 1, 1⟩ 10 initialAdaptiveState ⟨0, 12, "calm", "t"⟩ =
      initialAdaptiveState :=
  updateFromReading_nonpositive_noop ⟨50, 4.5, 14, 1, 1⟩ 10 initialAdaptiveState
    ⟨0, 12, "calm", "t"⟩ le_rfl

/-- Claim C8: for any non-negative accumulation rate, `estimateFRLevel` is
monotone non-decreasing in days-since-clean across all six buckets. -/
theorem estimateFRLevel_monotone (rate d1 d2 : ℝ) (hrate : 0 ≤ rate) (hd : d1 ≤ d2) :
    estimateFRLevel rate d1 ≤ estimateFRLevel rate d2 := by
  have h : d1 * rate ≤ d2 * rate := mul_le_mul_of_nonneg_right hd hrate
  simp only [estimateFRLevel]
  split_ifs <;> first | omega | linarith

/-- Witness for C8 at rate 1 and days 0 ≤ 100. -/
theorem estimateFRLevel_monotone_witness :
    estimateFRLevel 1 0 ≤ estimateFRLevel 1 100 :=
  estimateFRLevel_monotone 1 0 100 (by norm_num) (by norm_num)

/-- Claim C10: an absent or future last-clean date gives 0 days since
clean, and then `estimateFRLevel` returns fouling level 0 for every
accumulation-rate value. -/
theorem cleanDate_absent_or_future (now : ℝ) (lastCleanDate : Option ℝ)
    (h : lastCleanDate = none ∨ ∃ c, lastCleanDate = some c ∧ now < c) :
    calculateDaysSinceClean now lastCleanDate = 0 ∧
      ∀ rate : ℝ, estimateFRLevel rate (calculateDaysSinceClean now lastCleanDate) = 0 := by
  have hdays : calculateDaysSinceClean now lastCleanDate = 0 := by
    rcases h with h | ⟨c, hc, hlt⟩
    · rw [h]; rfl
    · rw [hc]
      simp only [calculateDaysSinceClean]
      have hneg : (now - c) / (1000 * 60 * 60 * 24) ≤ 0 :=
        div_nonpos_iff.mpr (Or.inr ⟨by linarith, by norm_num⟩)
      have hfl : ⌊(now - c) / (1000 * 60 * 60 * 24)⌋ ≤ 0 := Int.floor_nonpos hneg
      rw [max_eq_left hfl]
      norm_num
  refine ⟨hdays, fun rate => ?_⟩
  rw [hdays]
  unfold estimateFRLevel
  norm_num

/-- Witness for C10: no last-clean date recorded. -/
theorem cleanDate_absent_or_future_witness :
    calculateDaysSinceClean 0 none = 0 ∧
      estimateFRLevel 1 (calculateDaysSinceClean 0 none) = 0 :=
  ⟨(cleanDate_absent_or_future 0 none (Or.inl rfl)).1,
   (cleanDate_absent_or_future 0 none (Or.inl rfl)).2 1⟩

/-- Claim C1 (intended reading, see the module comment on
`predictComponents`): `predict` returns the fouled physics cost at the
current estimated fouling level times the correction factor times the
weather multiplier, with multipliers calm 1.0, moderate 1.05, rough 1.15,
storm 1.30, and 1.05 for any unknown weather string. -/
theorem predict_decomposition (p : PhysicsParams) (daysSinceClean : ℝ)
    (st : AdaptiveState) (speed : ℝ) (weather : String) :
    predict p daysSinceClean st speed weather =
      (calculateCostAt p speed
          (estimateFRLevel st.foulingAccumulationRate daysSinceClean)).fouled *
        st.correctionFactor * weatherMultiplier weather ∧
    weatherMultiplier "calm" = 1.0 ∧
    weatherMultiplier "moderate" = 1.05 ∧
    weatherMultiplier "rough" = 1.15 ∧
    weatherMultiplier "storm" = 1.30 ∧
    (∀ w : String, w ≠ "calm" → w ≠ "moderate" → w ≠ "rough" → w ≠ "storm" →
      weatherMultiplier w = 1.05) := by
  refine ⟨rfl, by simp [weatherMultiplier], by simp [weatherMultiplier],
    by simp [weatherMultiplier], by simp [weatherMultiplier], fun w h1 h2 h3 h4 => ?_⟩
  simp [weatherMultiplier, h1, h2, h3, h4]

/-- Witness for C1: an unknown weather string falls back to the moderate
multiplier. -/
theorem predict_decomposition_witness :
    weatherMultiplier "squall" = 1.05 :=
  (predict_decomposition ⟨50, 4.5, 14, 1, 1⟩ 0 initialAdaptiveState 12 "calm").2.2.2.2.2
    "squall" (by decide) (by decide) (by decide) (by decide)

/-- Claim C9: `predict` with the weather argument omitted uses the
JavaScript default `'calm'`, whose multiplier is 1.0 (not the 1.05
fallback), and `calculateExtraCostPerDay` (used by `recommendCleaning`)
is computed from that calm-weather prediction. -/
theorem predict_default_is_calm (p : PhysicsParams) (daysSinceClean : ℝ)
    (st : AdaptiveState) (speed : ℝ) :
    predictDefaultWeather p daysSinceClean st speed =
      predict p daysSinceClean st speed "calm" ∧
    weatherMultiplier "calm" = 1.0 ∧
    predict p daysSinceClean st speed "calm" =
      (calculateCostAt p speed
          (estimateFRLevel st.foulingAccumulationRate daysSinceClean)).fouled *
        st.correctionFactor * 1.0 ∧
    calculateExtraCostPerDay p speed daysSinceClean st =
      max 0 ((predict p daysSinceClean st speed "calm" -
        (calculateCostAt p speed 0).fouled) * 24) := by
  refine ⟨rfl, by simp [weatherMultiplier], ?_, rfl⟩
  show (calculateCostAt p speed
      (estimateFRLevel st.foulingAccumulationRate daysSinceClean)).fouled *
        st.correctionFactor * weatherMultiplier "calm" = _
  simp [weatherMultiplier]

/-- `updateConfidence` keeps confidence in [0, 100]. -/
theorem updateConfidence_bounds (conf err : ℝ) (h0 : 0 ≤ conf) (h100 : conf ≤ 100) :
    0 ≤ updateConfidence conf err ∧ updateConfidence conf err ≤ 100 := by
  simp only [updateConfidence]
  split_ifs with h
  · exact ⟨le_min (by norm_num) (by nlinarith), min_le_left _ _⟩
  · push_neg at h
    exact ⟨le_max_left _ _, max_le (by norm_num) (by nlinarith)⟩

/-- `updateFoulingAccumulationRate` keeps the rate in [0.5, 2.0]. -/
theorem updateFoulingAccumulationRate_bounds (buffer : List TrainingPoint) (rate : ℝ)
    (h1 : 0.5 ≤ rate) (h2 : rate ≤ 2.0) :
    0.5 ≤ updateFoulingAccumulationRate buffer rate ∧
      updateFoulingAccumulationRate buffer rate ≤ 2.0 := by
  simp only [updateFoulingAccumulationRate]
  split_ifs
  · exact ⟨h1, h2⟩
  · exact ⟨le_max_left _ _, max_le (by norm_num) (min_le_left _ _)⟩
  · exact ⟨h1, h2⟩

/-- `retrainModel` preserves the state bounds. -/
theorem retrainModel_preserves (st : AdaptiveState) (h : stateBounds st) :
    stateBounds (retrainModel st) := by
  simp only [retrainModel]
  split_ifs
  · exact h
  · obtain ⟨hcf, hrate, hconf⟩ := h
    exact ⟨hcf,
      updateFoulingAccumulationRate_bounds st.trainingDataBuffer
        st.foulingAccumulationRate hrate.1 hrate.2, hconf⟩

/-- A single `updateFromReading` call preserves the state bounds. -/
theorem updateFromReading_preserves (p : PhysicsParams) (daysSinceClean : ℝ)
    (st : AdaptiveState) (r : Reading) (h : stateBounds st) :
    stateBounds (updateFromReading p daysSinceClean st r) := by
  obtain ⟨hcf, hrate, hconf⟩ := h
  simp only [updateFromReading]
  split_ifs with h1 h2
  · exact ⟨hcf, hrate, hconf⟩
  · exact retrainModel_preserves _
      ⟨⟨le_max_left _ _, max_le (by norm_num) (min_le_left _ _)⟩, hrate,
        updateConfidence_bounds st.confidence _ hconf.1 hconf.2⟩
  · exact ⟨⟨le_max_left _ _, max_le (by norm_num) (min_le_left _ _)⟩, hrate,
      updateConfidence_bounds st.confidence _ hconf.1 hconf.2⟩

/-- Bounds survive any fold of readings. -/
theorem foldl_updateFromReading_preserves (p : PhysicsParams) (daysSinceClean : ℝ)
    (rs : List Reading) (st : AdaptiveState) (h : stateBounds st) :
    stateBounds (rs.foldl (updateFromReading p daysSinceClean) st) := by
  induction rs generalizing st with
  | nil => exact h
  | cons r rest ih => exact ih _ (updateFromReading_preserves p daysSinceClean st r h)

/-- Claim C2 (code bug, the same root slip as C1): over the intended
embedding in which `predictComponents` reads the `fouled` field, every
write is clamped, so starting from the constructor defaults any finite
sequence of `updateFromReading` calls with arbitrary inputs keeps the
correction factor in [0.3, 3.0], the fouling accumulation rate in
[0.5, 2.0], and the confidence in [0, 100].  In the running program the
line-125 record coercion makes `predicted` NaN on the first valid
reading, so `Math.max(0.3, Math.min(3.0, NaN))` is NaN and the
correction factor (and likewise the confidence) leaves its bounds; this
theorem proves the clamp logic that is the claim's intent. -/
theorem adaptiveState_bounds_invariant (p : PhysicsParams) (daysSinceClean : ℝ)
    (readings : List Reading) :
    stateBounds (readings.foldl (updateFromReading p daysSinceClean) initialAdaptiveState) := by
  apply foldl_updateFromReading_preserves
  refine ⟨⟨?_, ?_⟩, ⟨?_, ?_⟩, ⟨?_, ?_⟩⟩ <;> norm_num [initialAdaptiveState]

/-- Claim C4 (code bug): with three windowed observations at fouling
level 1, each recording actual 1 against predicted 2 — stored `error`
field `|1 - 2| / 2 = 0.5`, signed relative error `(1 - 2) / 2 = -0.5` —
retraining RAISES the rate from 1 to 1.25, because the code averages the
stored unsigned `error` values, while the claim's signed-error formula
gives `clamp(1 × (1 + 0.5 × (-0.5))) = 0.75`.  The code's own comments
(adaptiveModel.js lines 262-263 and 271) describe signed-error
behaviour, which the always-non-negative stored `error` can never give. -/
theorem retrain_uses_unsigned_error :
    updateFoulingAccumulationRate
      [⟨1, 2, 10, "calm", 1, 1/2, "t1"⟩, ⟨1, 2, 10, "calm", 1, 1/2, "t2"⟩,
       ⟨1, 2, 10, "calm", 1, 1/2, "t3"⟩] 1 = 1.25 ∧
    (1.25 : ℝ) ≠ max 0.5 (min 2.0 (1 * (1 + 0.5 * (((1 : ℝ) - 2) / 2)))) := by
  constructor
  · simp only [updateFoulingAccumulationRate]
    norm_num [List.filter, List.dedup, List.pwFilter, List.sum_cons, min_def, max_def]
  · norm_num [min_def, max_def]

/-- Claim C5 counterexample: at Froude number exactly 0.35 (hull length
100/981 m makes `sqrt(GRAVITY × length) = 1`, speed 87500/128611 kn makes
`speed × KNOTS_TO_MPS = 0.35`), the attenuation factor is still 0.6, so
the effective increase for fouling level 1 is 0.15 × 0.6 = 0.09, not the
floor value 0.15 × 0.3 = 0.045 the claim asserts is reached at 0.35. -/
theorem foulingImpact_floor_not_at_froude_035 :
    (87500 / 128611 : ℝ) * KNOTS_TO_MPS /
        Real.sqrt (GRAVITY * (PhysicsParams.mk (100 / 981) 4.5 14 1 1).length) = 0.35 ∧
    (calculateCostAt (PhysicsParams.mk (100 / 981) 4.5 14 1 1)
        (87500 / 128611) 1).foulingIncrease = 0.09 ∧
    (0.09 : ℝ) ≠ foulingIncreases 1 * 0.3 := by
  have hsq : Real.sqrt (GRAVITY * (100 / 981 : ℝ)) = 1 := by
    rw [show GRAVITY * (100 / 981 : ℝ) = 1 by norm_num [GRAVITY]]
    exact Real.sqrt_one
  have hfr : (87500 / 128611 : ℝ) * KNOTS_TO_MPS /
      Real.sqrt (GRAVITY * (100 / 981 : ℝ)) = 0.35 := by
    rw [hsq]
    norm_num [KNOTS_TO_MPS]
  refine ⟨hfr, ?_, by norm_num [foulingIncreases]⟩
  simp only [calculateCostAt]
  rw [if_pos (by rw [hfr]; norm_num)]
  rw [hfr, max_eq_right (by norm_num)]
  norm_num [foulingIncreases]

/-- Claim C5 (amended): for fouling levels 1-5 the effective increase
equals the full tabulated increase for Froude number at most 0.15,
decays linearly between 0.15 and 0.5, and sits at the floor of 30% of
the tabulated increase for Froude number at least 0.5. -/
theorem foulingImpact_attenuation (p : PhysicsParams) (speed : ℝ) (frLevel : ℕ)
    (hfr1 : 1 ≤ frLevel) (hfr5 : frLevel ≤ 5) :
    (speed * KNOTS_TO_MPS / Real.sqrt (GRAVITY * p.length) ≤ 0.15 →
      (calculateCostAt p speed frLevel).foulingIncrease = foulingIncreases frLevel) ∧
    (0.15 ≤ speed * KNOTS_TO_MPS / Real.sqrt (GRAVITY * p.length) →
      speed * KNOTS_TO_MPS / Real.sqrt (GRAVITY * p.length) ≤ 0.5 →
      (calculateCostAt p speed frLevel).foulingIncrease =
        foulingIncreases frLevel *
          (1.0 - 2.0 * (speed * KNOTS_TO_MPS / Real.sqrt (GRAVITY * p.length) - 0.15))) ∧
    (0.5 ≤ speed * KNOTS_TO_MPS / Real.sqrt (GRAVITY * p.length) →
      (calculateCostAt p speed frLevel).foulingIncrease = foulingIncreases frLevel * 0.3) := by
  simp only [calculateCostAt]
  refine ⟨fun h => ?_, fun h1 h2 => ?_, fun h => ?_⟩
  · rw [if_neg (not_lt.mpr h)]
    norm_num
  · rcases lt_or_eq_of_le h1 with hlt | heq
    · rw [if_pos hlt, max_eq_right (by linarith)]
    · rw [if_neg (not_lt.mpr heq.ge), ← heq]
      norm_num
  · rw [if_pos (by linarith), max_eq_left (by linarith)]

/-- Witness for the amended C5: at speed 0 the Froude number is 0, so the
full tabulated increase applies at fouling level 1. -/
theorem foulingImpact_attenuation_witness :
    (calculateCostAt (PhysicsParams.mk (100 / 981) 4.5 14 1 1) 0 1).foulingIncrease =
      foulingIncreases 1 :=
  (foulingImpact_attenuation (PhysicsParams.mk (100 / 981) 4.5 14 1 1) 0 1
      (by norm_num) (by norm_num)).1
    (by rw [zero_mul, zero_div]; norm_num)

/-- Claim C6 (amended): `solveAlphaBeta` throws exactly when the two
speeds coincide or one of the four inputs is zero (the JavaScript falsy
test); negative inputs are not rejected. -/
theorem solveAlphaBeta_error_iff (w c1 c2 s1 s2 : ℝ) :
    throwsError (solveAlphaBeta w c1 c2 s1 s2) = true ↔
      s1 = s2 ∨ c1 = 0 ∨ c2 = 0 ∨ s1 = 0 ∨ s2 = 0 := by
  simp only [solveAlphaBeta]
  split_ifs with h1 h2
  · exact iff_of_true rfl (Or.inl h1)
  · exact iff_of_true rfl (Or.inr h2)
  · exact iff_of_false (by simp [throwsError]) (by tauto)

/-- Claim C6 counterexample: a negative economic cost is a non-positive
input, yet `solveAlphaBeta` does not throw on it. -/
theorem solveAlphaBeta_accepts_negative_cost :
    ((-1 : ℝ) ≤ 0) ∧ throwsError (solveAlphaBeta 4 (-1) 2 1 2) = false := by
  refine ⟨by norm_num, ?_⟩
  simp only [solveAlphaBeta]
  rw [if_neg (by norm_num), if_neg (by norm_num)]
  rfl

/-- The 2x2 system's determinant `x1*y2 - x2*y1` is nonzero for distinct
positive speeds whenever the wave exponent differs from 3 (the cubic
term's exponent). -/
theorem calibration_det_ne_zero (w s1 s2 : ℝ) (h1 : 0 < s1) (h12 : s1 < s2) (hw : w ≠ 3) :
    s1 ^ (3 : ℝ) * s2 ^ w - s2 ^ (3 : ℝ) * s1 ^ w ≠ 0 := by
  have h2 : (0 : ℝ) < s2 := h1.trans h12
  have hb : 1 < s2 / s1 := (one_lt_div h1).mpr h12
  intro heq
  have hs1w : (0 : ℝ) < s1 ^ w := Real.rpow_pos_of_pos h1 w
  have hs13 : (0 : ℝ) < s1 ^ (3 : ℝ) := Real.rpow_pos_of_pos h1 3
  have key : (s2 / s1 : ℝ) ^ w = (s2 / s1 : ℝ) ^ (3 : ℝ) := by
    rw [Real.div_rpow h2.le h1.le, Real.div_rpow h2.le h1.le,
      div_eq_div_iff (ne_of_gt hs1w) (ne_of_gt hs13)]
    linarith
  rcases lt_or_gt_of_ne hw with h | h
  · exact absurd key (ne_of_lt (Real.rpow_lt_rpow_of_exponent_lt hb h))
  · exact absurd key.symm (ne_of_lt (Real.rpow_lt_rpow_of_exponent_lt hb h))

/-- Claim C3 (amended): for 0.1 ≤ ecoSpeed < fullSpeed, 0 < ecoCost <
fullCost, and a positive wave exponent other than 3, `solveAlphaBeta`
returns coefficients that make `calculateBaseCost` reproduce both
calibration points exactly. -/
theorem calibration_reproduces_points (L w c1 c2 s1 s2 : ℝ)
    (hs1 : 0.1 ≤ s1) (h12 : s1 < s2) (hc1 : 0 < c1) (hc12 : c1 < c2)
    (hw0 : 0 < w) (hw3 : w ≠ 3) :
    solveAlphaBeta w c1 c2 s1 s2 =
      .ok (solvedAlpha w c1 c2 s1 s2, solvedBeta w c1 c2 s1 s2) ∧
    calculateBaseCost ⟨L, w, s2, solvedAlpha w c1 c2 s1 s2, solvedBeta w c1 c2 s1 s2⟩ s1 = c1 ∧
    calculateBaseCost ⟨L, w, s2, solvedAlpha w c1 c2 s1 s2, solvedBeta w c1 c2 s1 s2⟩ s2 = c2 := by
  have h1 : (0 : ℝ) < s1 := lt_of_lt_of_le (by norm_num) hs1
  have h2 : (0 : ℝ) < s2 := h1.trans h12
  have hdet := calibration_det_ne_zero w s1 s2 h1 h12 hw3
  refine ⟨?_, ?_, ?_⟩
  · simp only [solveAlphaBeta]
    rw [if_neg (ne_of_lt h12), if_neg (by
      push_neg
      exact ⟨ne_of_gt hc1, ne_of_gt (hc1.trans hc12), ne_of_gt h1, ne_of_gt h2⟩)]
  · simp only [calculateBaseCost, solvedAlpha, solvedBeta]
    rw [min_eq_left (by linarith), max_eq_right hs1]
    field_simp
    ring
  · simp only [calculateBaseCost, solvedAlpha, solvedBeta]
    rw [min_eq_left (by linarith), max_eq_right (by linarith)]
    field_simp
    ring

/-- Witness for the amended C3 at ecoSpeed 1, fullSpeed 2, costs 1 and 2,
wave exponent 4. -/
theorem calibration_reproduces_points_witness :
    ((0.1 : ℝ) ≤ 1 ∧ (1 : ℝ) < 2 ∧ (0 : ℝ) < 1 ∧ (1 : ℝ) < 2 ∧ (0 : ℝ) < 4 ∧ (4 : ℝ) ≠ 3) ∧
    (solveAlphaBeta 4 1 2 1 2 = .ok (solvedAlpha 4 1 2 1 2, solvedBeta 4 1 2 1 2) ∧
     calculateBaseCost ⟨1, 4, 2, solvedAlpha 4 1 2 1 2, solvedBeta 4 1 2 1 2⟩ 1 = 1 ∧
     calculateBaseCost ⟨1, 4, 2, solvedAlpha 4 1 2 1 2, solvedBeta 4 1 2 1 2⟩ 2 = 2) :=
  ⟨⟨by norm_num, by norm_num, by norm_num, by norm_num, by norm_num, by norm_num⟩,
   calibration_reproduces_points 1 4 1 2 1 2 (by norm_num) (by norm_num) (by norm_num)
     (by norm_num) (by norm_num) (by norm_num)⟩

/-- Claim C3 counterexample: at wave exponent 3 (positive, and the input
is otherwise valid: ecoSpeed 1 < fullSpeed 2, 0 < ecoCost 1 < fullCost 2)
the system is singular; the code divides by a zero determinant and the
resulting coefficients give `calculateBaseCost(ecoSpeed) = 0 ≠ 1 = ecoCost`
(in JavaScript the coefficients are infinite and the cost is NaN). -/
theorem calibration_fails_at_waveExp_three :
    ((0.1 : ℝ) ≤ 1 ∧ (1 : ℝ) < 2 ∧ (0 : ℝ) < 1 ∧ (1 : ℝ) < 2 ∧ (0 : ℝ) < 3) ∧
    solveAlphaBeta 3 1 2 1 2 = .ok (solvedAlpha 3 1 2 1 2, solvedBeta 3 1 2 1 2) ∧
    calculateBaseCost ⟨1, 3, 2, solvedAlpha 3 1 2 1 2, solvedBeta 3 1 2 1 2⟩ 1 = 0 ∧
    (0 : ℝ) ≠ 1 := by
  have h2r : (2 : ℝ) ^ (3 : ℝ) = 8 := by
    rw [show (3 : ℝ) = ((3 : ℕ) : ℝ) by norm_num, Real.rpow_natCast]
    norm_num
  have ha : solvedAlpha 3 1 2 1 2 = 0 := by
    simp only [solvedAlpha, Real.one_rpow, h2r]
    norm_num
  have hb : solvedBeta 3 1 2 1 2 = 0 := by
    simp only [solvedBeta, Real.one_rpow, h2r]
    norm_num
  refine ⟨by norm_num, ?_, ?_, by norm_num⟩
  · simp only [solveAlphaBeta]
    rw [if_neg (by norm_num), if_neg (by norm_num)]
  · simp only [calculateBaseCost]
    rw [ha, hb]
    norm_num

end FoulingCostApp
